import Mathlib

/-!
Shallow embedding of the MPP typed-message layer (mpi_type_traits,
msg_impl, comm, endpoint, request) from `include/detail/type_traits.h`,
`include/detail/message.h`, `include/detail/comm.h`.

Addresses are modelled as `Int` (MPI_Aint), element counts as `Nat`
(size_t cast to int at the MPI boundary), and the MPI datatype registry
(`MPI_Type_create_struct` / `MPI_Type_commit`) as explicit state: a list
of committed composite layouts, where a handle is an index into it.
-/

namespace Mpp

/-- Wire primitives: the `MPI_Datatype` constants named in the
`PRIMITIVE(Type, MpiType)` table of `detail/type_traits.h`. -/
inductive PrimKind where
  | char | wchar | short | int | long
  | schar | uchar | ushort | uint | ulong | ulonglong
  | float | double | longdouble
  | bool | complexf | complexd | complexld
deriving DecidableEq, Repr

/-- An `MPI_Datatype` value: either one of the built-in primitive
constants, or a handle produced by `MPI_Type_create_struct` +
`MPI_Type_commit` (modelled as an index into the registry). -/
inductive Datatype where
  | prim (k : PrimKind)
  | composite (handle : Nat)
deriving DecidableEq, Repr

/-- One committed structured type: the `(dimension, address, types)`
arrays of `MPI_Type_create_struct`, zipped into triples
(relative byte offset, element datatype, element count) in order. -/
abbrev Layout := List (Int × Datatype × Nat)

/-- The transport-side datatype registry: every layout ever committed,
in commit order.  A committed handle is its index in this list. -/
abbrev Registry := List Layout

/-- Embeds `MPI_Type_create_struct` followed by `MPI_Type_commit`: registers
the layout and returns a fresh handle (the next free index). -/
def registerComposite (reg : Registry) (lay : Layout) : Datatype × Registry :=
  (Datatype.composite reg.length, reg ++ [lay])

/-! ## Value models

Each C++ value shape the traits dispatch on is modelled with the
memory facts the traits actually read: addresses and element data. -/

/-- A raw scalar `T raw` living at some address (`&raw`). -/
structure ScalarVal (α : Type) where
  addr : Int
  val : α
deriving DecidableEq

/-- A `std::vector<T>`: contiguous storage starting at `dataAddr`,
each element `elemSize` bytes wide. -/
structure VectorVal (α : Type) where
  dataAddr : Int
  elemSize : Int
  elems : List α
deriving DecidableEq

/-- Address of element `i` of a vector (contiguous storage). -/
def VectorVal.elemAddr (v : VectorVal α) (i : Nat) : Int :=
  v.dataAddr + v.elemSize * i

/-- A `std::array<T, N>`: `n` models the static extent `N`. -/
structure ArrayVal (α : Type) where
  n : Nat
  dataAddr : Int
deriving DecidableEq

/-- A `std::list<T>`: nodes in iteration order, each node carrying the
address of its payload (`&curr`, as taken by `MPI_Address`) and the
payload itself.  Node addresses are arbitrary: nothing is contiguous. -/
structure ListVal (α : Type) where
  nodes : List (Int × α)
deriving DecidableEq

/-! ## mpi_type_traits (detail/type_traits.h)

The primary template and each specialization, translated member by
member.  Element-level traits of `T` are passed as functions
(`tKind`, `tSize`): compile-time dispatch on `T` becomes
parametrization. -/

/-- Primary template: `get_size(T& raw) { return 1; }`. -/
def scalar_get_size (_s : ScalarVal α) : Nat := 1

/-- Primary template: `get_addr(T& raw) { return &raw; }`. -/
def scalar_get_addr (s : ScalarVal α) : Int := s.addr

/-- Embeds `PRIMITIVE(Type, MpiType)` specialization of `get_type`: returns
the MPI constant for the scalar static type, ignoring the value. -/
def scalar_get_type (k : PrimKind) (_s : ScalarVal α) : Datatype :=
  Datatype.prim k

/-- Embeds `mpi_type_traits<std::vector<T>>::get_size`: `vec.size()`. -/
def vector_get_size (v : VectorVal α) : Nat := v.elems.length

/-- Embeds `mpi_type_traits<std::vector<T>>::get_addr`:
`get_addr(vec.front())`, i.e. the address of element 0.  Calling
`front()` on an empty vector is undefined: `none`. -/
def vector_get_addr (v : VectorVal α) : Option Int :=
  if v.elems.isEmpty then none else some (v.elemAddr 0)

/-- Embeds `mpi_type_traits<std::vector<T>>::get_type`: the element type's
MPI constant (`get_type(T())`), independent of the vector's contents. -/
def vector_get_type (ek : PrimKind) (_v : VectorVal α) : Datatype :=
  Datatype.prim ek

/-- Embeds `mpi_type_traits<std::array<T,N>>::get_size`: the extent `N`. -/
def array_get_size (a : ArrayVal α) : Nat := a.n

/-- Embeds `mpi_type_traits<std::array<T,N>>::get_addr`:
`get_addr(vec.front())`; undefined (`none`) when `N = 0`. -/
def array_get_addr (a : ArrayVal α) : Option Int :=
  if a.n = 0 then none else some a.dataAddr

/-- Embeds `mpi_type_traits<std::array<T,N>>::get_type`: element constant. -/
def array_get_type (ek : PrimKind) (_a : ArrayVal α) : Datatype :=
  Datatype.prim ek

/-- Embeds `mpi_type_traits<std::list<T>>::get_size`: always `1` (one element
of the composite type built by `list_get_type`). -/
def list_get_size (_l : ListVal α) : Nat := 1

/-- Embeds `mpi_type_traits<std::list<T>>::get_addr`:
`get_addr(list.front())` — the address of the first node's payload;
undefined (`none`) on an empty list. -/
def list_get_addr (l : ListVal α) : Option Int :=
  l.nodes.head?.map (fun p => p.1)

/-- Embeds `mpi_type_traits<std::list<T>>::get_type`, translated from
`detail/type_traits.h` lines 151-191.  The first slot is written
outside the loop: type and size of `l.front()`, offset `0`; the
`for_each` over the remaining nodes records each node's
`MPI_Address` minus the base address, its element type, and its
element size, in iteration order.  The zipped arrays are committed
via `MPI_Type_create_struct` / `MPI_Type_commit`
(`registerComposite`), which returns a fresh handle and grows the
registry.  `l.front()` on an empty list is undefined: `none`. -/
def list_get_type (tKind : α → Datatype) (tSize : α → Nat)
    (l : ListVal α) (reg : Registry) : Option (Datatype × Registry) :=
  match l.nodes with
  | [] => none
  | (a0, v0) :: rest =>
    let firstSlot : Int × Datatype × Nat := (0, tKind v0, tSize v0)
    let laterSlots : Layout :=
      rest.map (fun p => (p.1 - a0, tKind p.2, tSize p.2))
    some (registerComposite reg (firstSlot :: laterSlots))

/-! ## msg_impl (detail/message.h, legacy mpp.h)

The detail headers define only the primary `msg_impl<MsgTy>`, which
holds a *reference* (`value_type& m_data`) into caller storage — also
when `MsgTy` is const-qualified, as in `send(const RawType&)`.  A
copying specialization `msg_impl<const MsgTy>` holding
`const MsgTy m_data` exists only in the legacy mpp.h (lines 197-227).
Caller storage is modelled as a store from locations to values; a
reference is a location, a copy is a value. -/

/-- Caller-side storage: maps locations to values. -/
def Store (α : Type) := Nat → α

/-- Writing `v` at location `loc` of a store. -/
def storeUpdate (s : Store α) (loc : Nat) (v : α) : Store α :=
  fun l => if l = loc then v else s l

/-- Embeds the primary `msg_impl<MsgTy>` (detail/message.h lines
35-75): `value_type& m_data` plus `int m_tag`.  The reference is the
location of the caller's value.  In the detail headers this template
is instantiated for const-qualified types too. -/
structure MsgRef where
  loc : Nat
  m_tag : Int
deriving DecidableEq

/-- Embeds the copying specialization `msg_impl<const MsgTy>` of the
legacy mpp.h (lines 197-227): `const MsgTy m_data` plus `int m_tag`.
The data member is a value, not a location.  The detail headers have
no such specialization. -/
structure MsgConst (α : Type) where
  m_data : α
  m_tag : Int

/-- The data a reference-holding message addresses at transmit time:
a read through the reference into the *current* store. -/
def msg_ref_data (m : MsgRef) (current : Store α) : α :=
  current m.loc

/-- The data a const (copying) message addresses at transmit time:
its own `m_data`; the current store is never consulted. -/
def msg_const_data (m : MsgConst α) (_current : Store α) : α :=
  m.m_data

/-- Embeds the legacy raw-value send `endpoint::operator<<(const
RawType& m)` (mpp.h lines 319-322): it builds
`msg_impl<const RawType>(m)` with the default tag `0`, and in mpp.h
that resolves to the copying specialization, whose constructor
`msg_impl(const MsgTy& v, int tag = 0) : m_data(v)` copies the value
currently stored at the caller's location. -/
def send_raw_wrap (s : Store α) (loc : Nat) : MsgConst α :=
  { m_data := s loc, m_tag := 0 }

/-- Embeds `endpoint::send(const RawType& m)` of detail/message.h
lines 143-146: it builds `msg_impl<const RawType>(m)` with the
default tag `0` from the *primary* template, whose
`value_type& m_data` (detail/message.h line 73) binds the caller's
storage by const reference — no copy is taken. -/
def send_raw_wrap_ref (loc : Nat) : MsgRef :=
  { loc := loc, m_tag := 0 }

/-! ## comm (detail/comm.h) -/

/-- Transport-global state read by `comm`: whether `MPI_Init` has run,
and the rank/size answers of `MPI_Comm_rank` / `MPI_Comm_size`. -/
structure MPIEnv where
  initialized : Bool
  rankVal : Int
  sizeVal : Int
deriving DecidableEq

/-- The fields of `class comm`: communicator handle, the
`m_initialized` latch, and the cached size and rank (both start at
`-1` in the private constructor). -/
structure CommState where
  m_comm : Nat
  m_initialized : Bool
  m_comm_size : Int
  m_rank : Int
deriving DecidableEq

/-- The private constructor `comm(MPI_Comm comm)`. -/
def comm_new (h : Nat) : CommState :=
  { m_comm := h, m_initialized := false, m_comm_size := -1, m_rank := -1 }

/-- Embeds `comm::check_init`, detail/comm.h lines 46-58.  Returns the
updated state and the number of transport queries made
(`MPI_Initialized`, `MPI_Comm_size`, `MPI_Comm_rank`); `none` models
the `assert` aborting because `MPI_Init` was never called. -/
def check_init (c : CommState) (env : MPIEnv) : Option (CommState × Nat) :=
  if c.m_initialized then some (c, 0)
  else if env.initialized = false then none
  else some
    ({ c with m_initialized := true,
              m_comm_size := env.sizeVal,
              m_rank := env.rankVal }, 3)

/-- Embeds `comm::rank()` (non-const overload): `check_init(); return m_rank;`.
Result: the rank, the updated state, the transport-query count. -/
def comm_rank (c : CommState) (env : MPIEnv) : Option (Int × CommState × Nat) :=
  (check_init c env).map (fun p => (p.1.m_rank, p.1, p.2))

/-- Embeds `comm::size()` (non-const overload). -/
def comm_size (c : CommState) (env : MPIEnv) : Option (Int × CommState × Nat) :=
  (check_init c env).map (fun p => (p.1.m_comm_size, p.1, p.2))

/-! ## endpoint (detail/message.h / detail/comm.h) -/

/-- Embeds `class endpoint`: `const int m_rank` and the borrowed
communicator handle `const MPI_Comm& m_comm`. -/
structure Endpoint where
  m_rank : Int
  m_comm : Nat
deriving DecidableEq

/-- Embeds `endpoint::rank()`. -/
def endpoint_rank (e : Endpoint) : Int := e.m_rank

/-- Embeds `comm::operator()(const int& rank_id) const`:
`return endpoint(rank_id, m_comm);`.  The method is `const`; the
(unchanged) comm state is returned alongside to make that explicit. -/
def comm_index (c : CommState) (rank_id : Int) : Endpoint × CommState :=
  ({ m_rank := rank_id, m_comm := c.m_comm }, c)

/-- The argument record of one `MPI_Send` call: buffer address,
element count, datatype, and tag (destination rank and communicator
come from the endpoint). -/
structure MsgDesc where
  addr : Int
  count : Nat
  dtype : Datatype
  tag : Int
deriving DecidableEq

/-- What the transport does with one blocking send: `MPI_SUCCESS`, or
a failure whose native diagnostic is `nativeText`. -/
inductive SendOutcome where
  | success
  | failure (nativeText : String)
deriving DecidableEq

/-- Embeds `comm_error`: `std::logic_error` carrying only the message text
built by the thrower. -/
structure CommError where
  text : String
deriving DecidableEq

/-- The string the `send` failure path streams into `ss`:
`"ERROR in MPI rank '<world rank>': Failed to send message to
destination rank '<dest>'"` (detail/message.h lines 203-207). -/
def sendErrorText (worldRank destRank : Int) : String :=
  "ERROR in MPI rank \x27" ++ toString worldRank ++
  "\x27: Failed to send message to destination rank \x27" ++
  toString destRank ++ "\x27"

/-- Embeds `endpoint::send(msg_impl&&)`, detail/message.h lines 192-208:
calls `MPI_Send` with the message descriptor, this endpoint's rank
and the communicator; on `MPI_SUCCESS` returns `*this`, otherwise
throws `comm_error` with the formatted text (the transport's own
diagnostic is not consulted).  `worldRank` is `comm::world.rank()`
as read in the failure path. -/
def endpoint_send (transport : MsgDesc → Int → Nat → SendOutcome)
    (worldRank : Int) (e : Endpoint) (m : MsgDesc) :
    Except CommError Endpoint :=
  match transport m e.m_rank e.m_comm with
  | SendOutcome.success => Except.ok e
  | SendOutcome.failure _ =>
      Except.error { text := sendErrorText worldRank e.m_rank }

/-! ## status and request (detail/message.h lines 294-341) -/

/-- An `MPI_Status` completion record: source, tag, error fields. -/
structure MPIStatus where
  source : Int
  tag : Int
  error : Int
deriving DecidableEq

/-- A `status` object as constructed by the request:
`status(m_comm, stat, m_msg.type())` — the completion record plus the
datatype handle needed to interpret counts. -/
structure StatusVal where
  stat : MPIStatus
  dtype : Datatype
deriving DecidableEq

/-- The transport side of one pending non-blocking receive: the
outcomes of successive `MPI_Test` calls (flag and, when the flag is
set, the filled completion record), and the record `MPI_Wait`
delivers. -/
structure Transport where
  tests : List (Bool × MPIStatus)
  waitStat : MPIStatus

/-- Embeds `MPI_Test(&m_req, &done, stat)`: consumes the next test outcome.
With no scripted outcome left the poll keeps reporting incomplete. -/
def mpiTest (t : Transport) : (Bool × MPIStatus) × Transport :=
  match t.tests with
  | [] => ((false, { source := 0, tag := 0, error := 0 }), t)
  | o :: rest => (o, { tests := rest, waitStat := t.waitStat })

/-- Embeds `MPI_Wait(&m_req, stat)`: blocks until done, yields the record. -/
def mpiWait (t : Transport) : MPIStatus × Transport :=
  (t.waitStat, t)

/-- The fields of `request<T>`: the owned message's value and the
datatype `m_msg.type()` yields for it, the lazily resolved
`m_status`, and the `done` flag (an `int` used as a boolean). -/
structure ReqState (α : Type) where
  m_msg : α
  m_dtype : Datatype
  m_status : Option StatusVal
  done : Bool
deriving DecidableEq

/-- The request constructor as called by `operator>`: status empty,
`done(0)`. -/
def reqInit (v : α) (dt : Datatype) : ReqState α :=
  { m_msg := v, m_dtype := dt, m_status := none, done := false }

/-- Embeds `request::isDone()`, detail/message.h lines 331-340: when `done`
is already set, return true at once; otherwise one `MPI_Test`, and on
a set flag latch `done` and materialize `m_status`.  The last
component counts transport calls made by this invocation. -/
def req_isDone (r : ReqState α) (t : Transport) :
    Bool × ReqState α × Transport × Nat :=
  if r.done then (true, r, t, 0)
  else
    match mpiTest t with
    | ((flag, stat), tNew) =>
      if flag then
        (true,
         { r with done := true,
                  m_status := some { stat := stat, dtype := r.m_dtype } },
         tNew, 1)
      else (false, r, tNew, 1)

/-- Embeds `request::get()`, detail/message.h lines 315-324: when `done` is
already set, return the message data at once; otherwise `MPI_Wait`,
latch `done`, materialize `m_status`, then return the data. -/
def req_get (r : ReqState α) (t : Transport) :
    α × ReqState α × Transport × Nat :=
  if r.done then (r.m_msg, r, t, 0)
  else
    match mpiWait t with
    | (stat, tNew) =>
      (r.m_msg,
       { r with done := true,
                m_status := some { stat := stat, dtype := r.m_dtype } },
       tNew, 1)

/-- Embeds `request::getStatus()`, detail/message.h lines 326-329:
`if (isDone()) { return *m_status; } throw "not done";`.
`Except.error "not done"` is the thrown bare string; the
`"null m_status"` branch models the undefined dereference of an empty
`m_status` after `isDone()` returned true — unreachable from any
state satisfying `ReqInv` (proved below). -/
def req_getStatus (r : ReqState α) (t : Transport) :
    Except String StatusVal × ReqState α × Transport × Nat :=
  match req_isDone r t with
  | (b, rNew, tNew, n) =>
    if b then
      match rNew.m_status with
      | some s => (Except.ok s, rNew, tNew, n)
      | none => (Except.error "null m_status", rNew, tNew, n)
    else (Except.error "not done", rNew, tNew, n)

/-- The request invariant: `m_status` is populated exactly when the
`done` flag is set. -/
def ReqInv (r : ReqState α) : Prop :=
  r.m_status.isSome = r.done

instance (r : ReqState α) : Decidable (ReqInv r) := by
  unfold ReqInv; infer_instance

/-! ## Theorems -/

/-- C1: for every non-empty node-based list, the composite layout
built by `mpi_type_traits<std::list<T>>::get_type` and committed to
the registry is a sequence of (relative-offset, kind, count) triples,
one per node in list iteration order: the first triple has offset 0,
triple `i` has offset equal to node `i`'s address minus the first
node's address, and every triple's kind and count are the element's
own trait values. -/
theorem C1_list_composite_layout (tKind : α → Datatype) (tSize : α → Nat)
    (l : ListVal α) (reg : Registry) (h : l.nodes ≠ []) :
    ∃ lay : Layout,
      list_get_type tKind tSize l reg
        = some (Datatype.composite reg.length, reg ++ [lay]) ∧
      lay.length = l.nodes.length ∧
      ∀ a0 v0, l.nodes[0]? = some (a0, v0) →
        lay[0]? = some (0, tKind v0, tSize v0) ∧
        ∀ (i : Nat) (ai : Int) (vi : α), l.nodes[i]? = some (ai, vi) →
          lay[i]? = some (ai - a0, tKind vi, tSize vi) := by
  match hl : l.nodes with
  | [] => exact absurd hl h
  | (a0, v0) :: rest =>
    refine ⟨(0, tKind v0, tSize v0) ::
      rest.map (fun p => (p.1 - a0, tKind p.2, tSize p.2)), ?_, ?_, ?_⟩
    · simp [list_get_type, hl, registerComposite]
    · simp
    · intro b0 w0 hb0
      rw [List.getElem?_cons_zero, Option.some_inj] at hb0
      injection hb0 with h1 h2
      subst h1; subst h2
      refine ⟨by simp, ?_⟩
      intro i ai vi hi
      match i with
      | 0 =>
        rw [List.getElem?_cons_zero, Option.some_inj] at hi
        injection hi with h1 h2
        subst h1; subst h2
        simp
      | j + 1 =>
        rw [List.getElem?_cons_succ] at hi
        simp [List.getElem?_map, hi]

/-- Witness for C1 at a concrete two-node list. -/
theorem C1_list_composite_layout_witness :
    ∃ lay : Layout,
      list_get_type (fun _ => Datatype.prim PrimKind.int) (fun _ => 1)
          (ListVal.mk [((100 : Int), (5 : Int)), (140, 7)]) []
        = some (Datatype.composite 0, [] ++ [lay]) ∧
      lay.length = 2 ∧
      ∀ a0 v0,
        (ListVal.mk [((100 : Int), (5 : Int)), (140, 7)]).nodes[0]?
            = some (a0, v0) →
        lay[0]? = some (0, Datatype.prim PrimKind.int, 1) ∧
        ∀ (i : Nat) (ai : Int) (vi : Int),
          (ListVal.mk [((100 : Int), (5 : Int)), (140, 7)]).nodes[i]?
              = some (ai, vi) →
          lay[i]? = some (ai - a0, Datatype.prim PrimKind.int, 1) :=
  C1_list_composite_layout (fun _ => Datatype.prim PrimKind.int)
    (fun _ => 1) (ListVal.mk [((100 : Int), (5 : Int)), (140, 7)]) []
    (by decide)

/-- C2: the element count reported by the traits is 1 for a scalar,
`N` for a fixed-size array, the current logical length for a vector,
and 1 (of the composite kind) for a node-based list; the reported
base address is the address of the value for a scalar, and the
address of the first element for every sequence — element 0 for a
vector, element 0 of the backing buffer for a fixed-size array, and
the first node's payload for a list. -/
theorem C2_descriptor_count_and_address
    (s : ScalarVal α) (v : VectorVal β) (a : ArrayVal γ) (l : ListVal δ)
    (hv : v.elems ≠ []) (ha : a.n ≠ 0) (hl : l.nodes ≠ []) :
    scalar_get_size s = 1 ∧
    scalar_get_addr s = s.addr ∧
    vector_get_size v = v.elems.length ∧
    vector_get_addr v = some (v.elemAddr 0) ∧
    array_get_size a = a.n ∧
    array_get_addr a = some a.dataAddr ∧
    list_get_size l = 1 ∧
    ∃ p, l.nodes.head? = some p ∧ list_get_addr l = some p.1 := by
  refine ⟨rfl, rfl, rfl, ?_, rfl, ?_, rfl, ?_⟩
  · simp [vector_get_addr, List.isEmpty_iff, hv]
  · simp [array_get_addr, ha]
  · cases hn : l.nodes with
    | nil => exact absurd hn hl
    | cons p rest => exact ⟨p, rfl, by simp [list_get_addr, hn]⟩

/-- Witness for C2 at concrete values of every shape. -/
theorem C2_descriptor_count_and_address_witness :
    scalar_get_size (ScalarVal.mk 8 (3 : Int)) = 1 ∧
    scalar_get_addr (ScalarVal.mk 8 (3 : Int)) = 8 ∧
    vector_get_size (VectorVal.mk 16 4 [(1 : Int), 2]) = 2 ∧
    vector_get_addr (VectorVal.mk 16 4 [(1 : Int), 2])
      = some ((VectorVal.mk 16 4 [(1 : Int), 2]).elemAddr 0) ∧
    array_get_size (ArrayVal.mk (α := Int) 3 32) = 3 ∧
    array_get_addr (ArrayVal.mk (α := Int) 3 32) = some 32 ∧
    list_get_size (ListVal.mk [((100 : Int), (5 : Int))]) = 1 ∧
    ∃ p, (ListVal.mk [((100 : Int), (5 : Int))]).nodes.head? = some p ∧
      list_get_addr (ListVal.mk [((100 : Int), (5 : Int))]) = some p.1 := by
  have h := C2_descriptor_count_and_address
    (ScalarVal.mk 8 (3 : Int)) (VectorVal.mk 16 4 [(1 : Int), 2])
    (ArrayVal.mk (α := Int) 3 32) (ListVal.mk [((100 : Int), (5 : Int))])
    (by decide) (by decide) (by decide)
  simpa using h

/-- C3 counterexample: the wrapper built by the raw-value send of the
detail headers (`endpoint::send(const RawType&)`,
detail/message.h:143-146, embedded as `send_raw_wrap_ref`) does *not*
hold a private copy.  Concretely: with the caller's value 5 at
location 0, the data the message addresses is 5; after the caller's
storage is mutated to 9, the data the same wrapper addresses is 9 —
mutating the caller's original value changed the data the message
addresses. -/
theorem C3_raw_send_reference_counterexample :
    msg_ref_data (send_raw_wrap_ref 0) (fun _ => (5 : Int)) = 5 ∧
    msg_ref_data (send_raw_wrap_ref 0)
      (storeUpdate (fun _ => (5 : Int)) 0 9) = 9 ∧
    (9 : Int) ≠ 5 := by
  exact ⟨rfl, rfl, by decide⟩

/-- C3 amended: the raw-value convenience send of the detail headers
builds a const-qualified wrapper (tag 0) from the primary `msg_impl`,
binding the caller's storage by const *reference*: the data the
message addresses at transmit time is whatever the caller's storage
then holds, so mutating the original value is visible to the message.
Only the legacy mpp.h copying specialization `msg_impl<const MsgTy>`
holds a private copy, whose addressed data is the value read at
construction under any later store — mutated or destroyed. -/
theorem C3_raw_send_binding_amended
    (s : Store α) (loc : Nat) (v2 : α) :
    (send_raw_wrap_ref loc).m_tag = 0 ∧
    msg_ref_data (send_raw_wrap_ref loc) s = s loc ∧
    msg_ref_data (send_raw_wrap_ref loc) (storeUpdate s loc v2) = v2 ∧
    (send_raw_wrap s loc).m_tag = 0 ∧
    (∀ current : Store α,
        msg_const_data (send_raw_wrap s loc) current = s loc) ∧
    msg_const_data (send_raw_wrap s loc) (storeUpdate s loc v2) = s loc := by
  refine ⟨rfl, rfl, ?_, rfl, fun _ => rfl, rfl⟩
  simp [msg_ref_data, send_raw_wrap_ref, storeUpdate]

/-- C4: the request completion protocol.  A freshly constructed
request satisfies the invariant "`m_status` is populated iff `done` is
set" (`ReqInv`), every operation preserves it, the flag returned by
`isDone` always equals the flag stored in the resulting state (so the
flag moves false→true at most once and never back), `get` always
leaves the request DONE, and once `done` is set, `isDone`, `get` and
`getStatus` return immediately with the state and transport unchanged
and zero transport calls — no re-poll and no re-materialization. -/
theorem C4_request_state_machine (v : α) (dt : Datatype)
    (r : ReqState α) (t : Transport) (hinv : ReqInv r) :
    ReqInv (reqInit v dt) ∧
    ReqInv (req_isDone r t).2.1 ∧
    ReqInv (req_get r t).2.1 ∧
    (req_isDone r t).1 = (req_isDone r t).2.1.done ∧
    (req_get r t).2.1.done = true ∧
    (r.done = true → req_isDone r t = (true, r, t, 0)) ∧
    (r.done = true → req_get r t = (r.m_msg, r, t, 0)) ∧
    (r.done = true →
      ∃ sv, r.m_status = some sv ∧
        req_getStatus r t = (Except.ok sv, r, t, 0)) := by
  have hinit : ReqInv (reqInit v dt) := by simp [ReqInv, reqInit]
  cases hd : r.done with
  | true =>
    obtain ⟨sv, hsv⟩ : ∃ sv, r.m_status = some sv := by
      rw [ReqInv, hd] at hinv
      exact Option.isSome_iff_exists.mp hinv
    refine ⟨hinit, ?_, ?_, ?_, ?_, fun _ => ?_, fun _ => ?_, fun _ => ?_⟩
    · simp [req_isDone, hd, ReqInv, hsv]
    · simp [req_get, hd, ReqInv, hsv]
    · simp [req_isDone, hd]
    · simp [req_get, hd]
    · simp [req_isDone, hd]
    · simp [req_get, hd]
    · exact ⟨sv, hsv, by simp [req_getStatus, req_isDone, hd, hsv]⟩
  | false =>
    rcases hmt : mpiTest t with ⟨⟨flag, stat⟩, tN⟩
    refine ⟨hinit, ?_, ?_, ?_, ?_,
      fun hc => absurd hc (by simp), fun hc => absurd hc (by simp),
      fun hc => absurd hc (by simp)⟩
    · cases flag with
      | true => simp [req_isDone, hd, hmt, ReqInv]
      | false => simpa [req_isDone, hd, hmt, ReqInv] using hinv
    · simp [req_get, hd, ReqInv]
    · cases flag with
      | true => simp [req_isDone, hd, hmt]
      | false => simp [req_isDone, hd, hmt]
    · simp [req_get, hd]

/-- Witness for C4 at a concrete pending request and transport. -/
theorem C4_request_state_machine_witness :
    ReqInv (reqInit (7 : Int) (Datatype.prim PrimKind.int)) ∧
    ReqInv (req_isDone (reqInit (7 : Int) (Datatype.prim PrimKind.int))
      (Transport.mk [(true, MPIStatus.mk 2 0 0)] (MPIStatus.mk 2 0 0))).2.1 ∧
    ReqInv (req_get (reqInit (7 : Int) (Datatype.prim PrimKind.int))
      (Transport.mk [(true, MPIStatus.mk 2 0 0)] (MPIStatus.mk 2 0 0))).2.1 ∧
    (req_isDone (reqInit (7 : Int) (Datatype.prim PrimKind.int))
        (Transport.mk [(true, MPIStatus.mk 2 0 0)] (MPIStatus.mk 2 0 0))).1
      = (req_isDone (reqInit (7 : Int) (Datatype.prim PrimKind.int))
        (Transport.mk [(true, MPIStatus.mk 2 0 0)]
          (MPIStatus.mk 2 0 0))).2.1.done ∧
    (req_get (reqInit (7 : Int) (Datatype.prim PrimKind.int))
      (Transport.mk [(true, MPIStatus.mk 2 0 0)]
        (MPIStatus.mk 2 0 0))).2.1.done = true ∧
    ((reqInit (7 : Int) (Datatype.prim PrimKind.int)).done = true →
      req_isDone (reqInit (7 : Int) (Datatype.prim PrimKind.int))
          (Transport.mk [(true, MPIStatus.mk 2 0 0)] (MPIStatus.mk 2 0 0))
        = (true, reqInit (7 : Int) (Datatype.prim PrimKind.int),
           Transport.mk [(true, MPIStatus.mk 2 0 0)] (MPIStatus.mk 2 0 0),
           0)) ∧
    ((reqInit (7 : Int) (Datatype.prim PrimKind.int)).done = true →
      req_get (reqInit (7 : Int) (Datatype.prim PrimKind.int))
          (Transport.mk [(true, MPIStatus.mk 2 0 0)] (MPIStatus.mk 2 0 0))
        = ((reqInit (7 : Int) (Datatype.prim PrimKind.int)).m_msg,
           reqInit (7 : Int) (Datatype.prim PrimKind.int),
           Transport.mk [(true, MPIStatus.mk 2 0 0)] (MPIStatus.mk 2 0 0),
           0)) ∧
    ((reqInit (7 : Int) (Datatype.prim PrimKind.int)).done = true →
      ∃ sv, (reqInit (7 : Int) (Datatype.prim PrimKind.int)).m_status
          = some sv ∧
        req_getStatus (reqInit (7 : Int) (Datatype.prim PrimKind.int))
            (Transport.mk [(true, MPIStatus.mk 2 0 0)] (MPIStatus.mk 2 0 0))
          = (Except.ok sv, reqInit (7 : Int) (Datatype.prim PrimKind.int),
             Transport.mk [(true, MPIStatus.mk 2 0 0)]
               (MPIStatus.mk 2 0 0), 0)) :=
  C4_request_state_machine (7 : Int) (Datatype.prim PrimKind.int)
    (reqInit (7 : Int) (Datatype.prim PrimKind.int))
    (Transport.mk [(true, MPIStatus.mk 2 0 0)] (MPIStatus.mk 2 0 0))
    (by decide)

/-- C5 counterexample: the descriptor query is *not* idempotent for
node-based lists at the level of the returned `MPI_Datatype` value.
On the same unmodified two-node binding, the first `type()` call
commits a fresh composite and returns handle 0; the immediately
repeated call commits another and returns handle 1 — a different
result, and the registry has grown. -/
theorem C5_repeated_type_counterexample :
    list_get_type (fun _ => Datatype.prim PrimKind.int) (fun _ => 1)
        (ListVal.mk [((100 : Int), (5 : Int)), (140, 7)]) []
      = some (Datatype.composite 0,
          [[(0, Datatype.prim PrimKind.int, 1),
            (40, Datatype.prim PrimKind.int, 1)]]) ∧
    list_get_type (fun _ => Datatype.prim PrimKind.int) (fun _ => 1)
        (ListVal.mk [((100 : Int), (5 : Int)), (140, 7)])
        [[(0, Datatype.prim PrimKind.int, 1),
          (40, Datatype.prim PrimKind.int, 1)]]
      = some (Datatype.composite 1,
          [[(0, Datatype.prim PrimKind.int, 1),
            (40, Datatype.prim PrimKind.int, 1)],
           [(0, Datatype.prim PrimKind.int, 1),
            (40, Datatype.prim PrimKind.int, 1)]]) ∧
    Datatype.composite 0 ≠ Datatype.composite 1 := by
  refine ⟨?_, ?_, by decide⟩ <;> decide

/-- C5 amended: repeated descriptor queries on the same unmodified
binding always commit the *same layout* — the registered layout is a
function of the binding alone, independent of the registry state at
the time of the call — and always report the same size and address;
only the composite handle returned for a node-based list is fresh on
each call.  For scalars, vectors and arrays the type query is the
same constant on every call, so the descriptor is fully idempotent
there. -/
theorem C5_descriptor_idempotence_amended
    (tKind : α → Datatype) (tSize : α → Nat) (l : ListVal α)
    (reg1 reg2 : Registry) (ek : PrimKind)
    (sv : ScalarVal β) (vv : VectorVal γ) (av : ArrayVal δ)
    (h : l.nodes ≠ []) :
    (∃ lay : Layout,
      list_get_type tKind tSize l reg1
        = some (Datatype.composite reg1.length, reg1 ++ [lay]) ∧
      list_get_type tKind tSize l reg2
        = some (Datatype.composite reg2.length, reg2 ++ [lay])) ∧
    scalar_get_type ek sv = Datatype.prim ek ∧
    vector_get_type ek vv = Datatype.prim ek ∧
    array_get_type ek av = Datatype.prim ek := by
  refine ⟨?_, rfl, rfl, rfl⟩
  cases hn : l.nodes with
  | nil => exact absurd hn h
  | cons p rest =>
    exact ⟨(0, tKind p.2, tSize p.2) ::
        rest.map (fun q => (q.1 - p.1, tKind q.2, tSize q.2)),
      by simp [list_get_type, hn, registerComposite],
      by simp [list_get_type, hn, registerComposite]⟩

/-- Witness for the amended C5 at concrete bindings and two distinct
registry states. -/
theorem C5_descriptor_idempotence_amended_witness :
    (∃ lay : Layout,
      list_get_type (fun _ => Datatype.prim PrimKind.int) (fun _ => 1)
          (ListVal.mk [((100 : Int), (5 : Int)), (140, 7)]) []
        = some (Datatype.composite ([] : Registry).length, [] ++ [lay]) ∧
      list_get_type (fun _ => Datatype.prim PrimKind.int) (fun _ => 1)
          (ListVal.mk [((100 : Int), (5 : Int)), (140, 7)]) [[]]
        = some (Datatype.composite ([[]] : Registry).length,
            [[]] ++ [lay])) ∧
    scalar_get_type PrimKind.int (ScalarVal.mk 8 (3 : Int))
      = Datatype.prim PrimKind.int ∧
    vector_get_type PrimKind.int (VectorVal.mk 16 4 [(1 : Int)])
      = Datatype.prim PrimKind.int ∧
    array_get_type PrimKind.int (ArrayVal.mk (α := Int) 3 32)
      = Datatype.prim PrimKind.int :=
  C5_descriptor_idempotence_amended
    (fun _ => Datatype.prim PrimKind.int) (fun _ => 1)
    (ListVal.mk [((100 : Int), (5 : Int)), (140, 7)]) [] [[]]
    PrimKind.int (ScalarVal.mk 8 (3 : Int)) (VectorVal.mk 16 4 [(1 : Int)])
    (ArrayVal.mk (α := Int) 3 32) (by decide)

/-- C6: calling `getStatus()` while the posted operation is still
pending — the request is not DONE and the transport poll made by
`getStatus` itself reports incomplete — throws the "not done" error
(the operation-not-complete condition); it does not return a Status,
and the request stays PENDING with `m_status` still empty. -/
theorem C6_getStatus_pending_fails (r : ReqState α) (t : Transport)
    (hd : r.done = false) (hp : (mpiTest t).1.1 = false) :
    (req_getStatus r t).1 = Except.error "not done" ∧
    (req_getStatus r t).2.1 = r := by
  rcases hmt : mpiTest t with ⟨⟨flag, stat⟩, tN⟩
  rw [hmt] at hp
  simp only at hp
  subst hp
  simp [req_getStatus, req_isDone, hd, hmt]

/-- Witness for C6: a pending request against a transport whose next
poll reports incomplete. -/
theorem C6_getStatus_pending_fails_witness :
    (req_getStatus (reqInit (7 : Int) (Datatype.prim PrimKind.int))
        (Transport.mk [(false, MPIStatus.mk 0 0 0)]
          (MPIStatus.mk 2 0 0))).1 = Except.error "not done" ∧
    (req_getStatus (reqInit (7 : Int) (Datatype.prim PrimKind.int))
        (Transport.mk [(false, MPIStatus.mk 0 0 0)]
          (MPIStatus.mk 2 0 0))).2.1
      = reqInit (7 : Int) (Datatype.prim PrimKind.int) :=
  C6_getStatus_pending_fails
    (reqInit (7 : Int) (Datatype.prim PrimKind.int))
    (Transport.mk [(false, MPIStatus.mk 0 0 0)] (MPIStatus.mk 2 0 0))
    (by decide) (by decide)

/-- C9: calling `getStatus()` on a request whose posted operation has
in fact completed succeeds even with no prior `isDone()`/`get()`
call: `getStatus` begins with `isDone()`, whose poll observes the
completion, latches `done`, materializes the Status from the
completion record and the message's datatype, and returns it. -/
theorem C9_getStatus_polls_first (r : ReqState α) (t : Transport)
    (stat : MPIStatus) (hd : r.done = false)
    (hp : (mpiTest t).1 = (true, stat)) :
    (req_getStatus r t).1 = Except.ok (StatusVal.mk stat r.m_dtype) ∧
    (req_getStatus r t).2.1.done = true ∧
    (req_getStatus r t).2.1.m_status = some (StatusVal.mk stat r.m_dtype) := by
  rcases hmt : mpiTest t with ⟨⟨flag, stat2⟩, tN⟩
  rw [hmt] at hp
  simp only at hp
  injection hp with hflag hstat
  subst hflag; subst hstat
  simp [req_getStatus, req_isDone, hd, hmt]

/-- Witness for C9: a never-polled request whose operation has
already completed. -/
theorem C9_getStatus_polls_first_witness :
    (req_getStatus (reqInit (7 : Int) (Datatype.prim PrimKind.int))
        (Transport.mk [(true, MPIStatus.mk 2 5 0)]
          (MPIStatus.mk 2 5 0))).1
      = Except.ok (StatusVal.mk (MPIStatus.mk 2 5 0)
          (Datatype.prim PrimKind.int)) ∧
    (req_getStatus (reqInit (7 : Int) (Datatype.prim PrimKind.int))
        (Transport.mk [(true, MPIStatus.mk 2 5 0)]
          (MPIStatus.mk 2 5 0))).2.1.done = true ∧
    (req_getStatus (reqInit (7 : Int) (Datatype.prim PrimKind.int))
        (Transport.mk [(true, MPIStatus.mk 2 5 0)]
          (MPIStatus.mk 2 5 0))).2.1.m_status
      = some (StatusVal.mk (MPIStatus.mk 2 5 0)
          (Datatype.prim PrimKind.int)) :=
  C9_getStatus_polls_first
    (reqInit (7 : Int) (Datatype.prim PrimKind.int))
    (Transport.mk [(true, MPIStatus.mk 2 5 0)] (MPIStatus.mk 2 5 0))
    (MPIStatus.mk 2 5 0) (by decide) (by decide)

/-- C7 counterexample: the `comm_error` thrown on send failure does
*not* carry the transport's native error text.  Two failures of the
same send whose native diagnostics differ ("MPI_ERR_RANK: invalid
rank" vs "MPI_ERR_TAG: invalid tag") throw byte-for-byte identical
errors, so the native text cannot be recovered from the error; the
thrown text is exactly the locally formatted rank message. -/
theorem C7_send_error_counterexample :
    endpoint_send
        (fun _ _ _ => SendOutcome.failure "MPI_ERR_RANK: invalid rank")
        3 (Endpoint.mk 1 0) (MsgDesc.mk 64 1 (Datatype.prim PrimKind.int) 0)
      = endpoint_send
        (fun _ _ _ => SendOutcome.failure "MPI_ERR_TAG: invalid tag")
        3 (Endpoint.mk 1 0)
        (MsgDesc.mk 64 1 (Datatype.prim PrimKind.int) 0) ∧
    "MPI_ERR_RANK: invalid rank" ≠ "MPI_ERR_TAG: invalid tag" ∧
    endpoint_send
        (fun _ _ _ => SendOutcome.failure "MPI_ERR_RANK: invalid rank")
        3 (Endpoint.mk 1 0) (MsgDesc.mk 64 1 (Datatype.prim PrimKind.int) 0)
      = Except.error (CommError.mk (sendErrorText 3 1)) := by
  exact ⟨rfl, by decide, rfl⟩

/-- C7 amended: on transport send failure the operation throws a
`comm_error` whose text carries the local (world) rank and the
destination rank — but not the transport's native error text — and on
transport success `send` returns the endpoint itself, enabling
chaining. -/
theorem C7_send_error_amended
    (transport : MsgDesc → Int → Nat → SendOutcome)
    (worldRank : Int) (e : Endpoint) (m : MsgDesc) (txt : String)
    (hfail : transport m e.m_rank e.m_comm = SendOutcome.failure txt) :
    endpoint_send transport worldRank e m
      = Except.error (CommError.mk (sendErrorText worldRank e.m_rank)) ∧
    (∃ pre post, sendErrorText worldRank e.m_rank
        = pre ++ toString worldRank ++ post) ∧
    (∃ pre post, sendErrorText worldRank e.m_rank
        = pre ++ toString e.m_rank ++ post) ∧
    ∀ tr2 : MsgDesc → Int → Nat → SendOutcome,
      tr2 m e.m_rank e.m_comm = SendOutcome.success →
        endpoint_send tr2 worldRank e m = Except.ok e := by
  refine ⟨by simp [endpoint_send, hfail], ?_, ?_, ?_⟩
  · exact ⟨"ERROR in MPI rank \x27",
      "\x27: Failed to send message to destination rank \x27" ++
        toString e.m_rank ++ "\x27",
      by simp [sendErrorText, String.append_assoc]⟩
  · exact ⟨"ERROR in MPI rank \x27" ++ toString worldRank ++
        "\x27: Failed to send message to destination rank \x27",
      "\x27",
      by simp [sendErrorText, String.append_assoc]⟩
  · intro tr2 hok
    simp [endpoint_send, hok]

/-- Witness for the amended C7 at a concrete failing transport. -/
theorem C7_send_error_amended_witness :
    endpoint_send (fun _ _ _ => SendOutcome.failure "boom") 0
        (Endpoint.mk 1 0) (MsgDesc.mk 64 1 (Datatype.prim PrimKind.int) 0)
      = Except.error (CommError.mk (sendErrorText 0 1)) ∧
    (∃ pre post, sendErrorText 0 1 = pre ++ toString (0 : Int) ++ post) ∧
    (∃ pre post, sendErrorText 0 1 = pre ++ toString (1 : Int) ++ post) ∧
    ∀ tr2 : MsgDesc → Int → Nat → SendOutcome,
      tr2 (MsgDesc.mk 64 1 (Datatype.prim PrimKind.int) 0) 1 0
          = SendOutcome.success →
        endpoint_send tr2 0 (Endpoint.mk 1 0)
            (MsgDesc.mk 64 1 (Datatype.prim PrimKind.int) 0)
          = Except.ok (Endpoint.mk 1 0) :=
  C7_send_error_amended (fun _ _ _ => SendOutcome.failure "boom") 0
    (Endpoint.mk 1 0) (MsgDesc.mk 64 1 (Datatype.prim PrimKind.int) 0)
    "boom" rfl

/-- C8: querying rank or size on a never-initialized `comm` while the
MPI runtime is down hits the `assert` and aborts (`none`) — a fatal
precondition, not a recoverable error.  On an initialized runtime the
first query latches `m_initialized`, caches size and rank, and makes
3 transport calls; once `m_initialized` is set, every further query
returns the cached values with the state untouched and **zero**
transport calls — the environment argument is not consulted at all
(here it is even an uninitialized one). -/
theorem C8_comm_lazy_cached_rank_size
    (h0 : Nat) (env envBad : MPIEnv) (c : CommState)
    (hEnv : env.initialized = true) (hBad : envBad.initialized = false)
    (hc : c.m_initialized = true) :
    comm_rank (comm_new h0) envBad = none ∧
    comm_size (comm_new h0) envBad = none ∧
    comm_rank (comm_new h0) env
      = some (env.rankVal,
          CommState.mk h0 true env.sizeVal env.rankVal, 3) ∧
    comm_size (comm_new h0) env
      = some (env.sizeVal,
          CommState.mk h0 true env.sizeVal env.rankVal, 3) ∧
    comm_rank c envBad = some (c.m_rank, c, 0) ∧
    comm_size c envBad = some (c.m_comm_size, c, 0) := by
  refine ⟨?_, ?_, ?_, ?_, ?_, ?_⟩ <;>
    simp [comm_rank, comm_size, check_init, comm_new, hEnv, hBad, hc]

/-- Witness for C8: concrete initialized and uninitialized
environments and a concrete cached comm state. -/
theorem C8_comm_lazy_cached_rank_size_witness :
    comm_rank (comm_new 0) (MPIEnv.mk false 0 0) = none ∧
    comm_size (comm_new 0) (MPIEnv.mk false 0 0) = none ∧
    comm_rank (comm_new 0) (MPIEnv.mk true 2 4)
      = some ((MPIEnv.mk true 2 4).rankVal,
          CommState.mk 0 true (MPIEnv.mk true 2 4).sizeVal
            (MPIEnv.mk true 2 4).rankVal, 3) ∧
    comm_size (comm_new 0) (MPIEnv.mk true 2 4)
      = some ((MPIEnv.mk true 2 4).sizeVal,
          CommState.mk 0 true (MPIEnv.mk true 2 4).sizeVal
            (MPIEnv.mk true 2 4).rankVal, 3) ∧
    comm_rank (CommState.mk 0 true 4 2) (MPIEnv.mk false 0 0)
      = some ((CommState.mk 0 true 4 2).m_rank,
          CommState.mk 0 true 4 2, 0) ∧
    comm_size (CommState.mk 0 true 4 2) (MPIEnv.mk false 0 0)
      = some ((CommState.mk 0 true 4 2).m_comm_size,
          CommState.mk 0 true 4 2, 0) :=
  C8_comm_lazy_cached_rank_size 0 (MPIEnv.mk true 2 4)
    (MPIEnv.mk false 0 0) (CommState.mk 0 true 4 2)
    rfl rfl rfl

/-- C10: indexing a channel context with rank `r`
(`comm::operator()`) yields an endpoint whose `rank()` is exactly
`r`, bound to the context's communicator; the construction leaves the
comm state (cached rank and size included) unchanged; and the
endpoint a successful `send` returns is the very same endpoint — its
rank never changes. -/
theorem C10_comm_index_endpoint_rank
    (c : CommState) (rid : Int)
    (transport : MsgDesc → Int → Nat → SendOutcome)
    (worldRank : Int) (m : MsgDesc) (e2 : Endpoint) :
    endpoint_rank (comm_index c rid).1 = rid ∧
    (comm_index c rid).1.m_comm = c.m_comm ∧
    (comm_index c rid).2 = c ∧
    (endpoint_send transport worldRank (comm_index c rid).1 m
        = Except.ok e2 →
      e2 = (comm_index c rid).1 ∧ endpoint_rank e2 = rid) := by
  refine ⟨rfl, rfl, rfl, ?_⟩
  intro hok
  unfold endpoint_send at hok
  cases htr : transport m (comm_index c rid).1.m_rank
      (comm_index c rid).1.m_comm with
  | success =>
    rw [htr] at hok
    simp only [Except.ok.injEq] at hok
    exact ⟨hok.symm, by rw [hok.symm]; rfl⟩
  | failure txt =>
    rw [htr] at hok
    cases hok

/-- Witness for C10: concrete comm state, rank, and a succeeding
transport. -/
theorem C10_comm_index_endpoint_rank_witness :
    endpoint_rank (comm_index (CommState.mk 0 true 4 2) 3).1 = 3 ∧
    (comm_index (CommState.mk 0 true 4 2) 3).1.m_comm
      = (CommState.mk 0 true 4 2).m_comm ∧
    (comm_index (CommState.mk 0 true 4 2) 3).2
      = CommState.mk 0 true 4 2 ∧
    (endpoint_send (fun _ _ _ => SendOutcome.success) 0
        (comm_index (CommState.mk 0 true 4 2) 3).1
        (MsgDesc.mk 64 1 (Datatype.prim PrimKind.int) 0)
        = Except.ok (Endpoint.mk 3 0) →
      Endpoint.mk 3 0 = (comm_index (CommState.mk 0 true 4 2) 3).1 ∧
      endpoint_rank (Endpoint.mk 3 0) = 3) :=
  C10_comm_index_endpoint_rank (CommState.mk 0 true 4 2) 3
    (fun _ _ _ => SendOutcome.success) 0
    (MsgDesc.mk 64 1 (Datatype.prim PrimKind.int) 0) (Endpoint.mk 3 0)

end Mpp
